import Mathlib

/-!
Shallow embedding of `scrapy/contrib/downloadermiddleware/retry.py`:
the `RetryMiddleware` class with its `EXCEPTIONS_TO_RETRY` tuple and the
methods `__init__`, `process_response`, `process_exception`, `_retry`.

Logging calls (`log.msg`) are observability only and influence no return
value, so they are omitted.  Python's mutable objects are rendered as
immutable Lean structures: `request.copy()` builds a fresh record value and
the subsequent attribute assignments in `_retry` become functional updates
on that copy, which reproduces the source's no-aliasing behaviour (the
original request record is a distinct value that keeps its fields).
-/

namespace Scrapy

/-- The kind of exception delivered to `process_exception`.  The eight base
constructors are the Twisted exception classes named in the source's
`EXCEPTIONS_TO_RETRY` tuple; `other` stands for any exception class outside
that closed list (carrying its class name). -/
inductive ExceptionKind where
  | serverTimeoutError
  | userTimeoutError
  | dnsLookupError
  | connectionRefusedError
  | connectionDone
  | connectError
  | connectionLost
  | partialDownloadError
  | other (name : String)
deriving DecidableEq, Repr

/-- `EXCEPTIONS_TO_RETRY = (ServerTimeoutError, UserTimeoutError, DNSLookupError,
ConnectionRefusedError, ConnectionDone, ConnectError, ConnectionLost,
PartialDownloadError)` — the closed tuple the source matches exceptions
against. -/
def EXCEPTIONS_TO_RETRY : List ExceptionKind :=
  [.serverTimeoutError, .userTimeoutError, .dnsLookupError,
   .connectionRefusedError, .connectionDone, .connectError,
   .connectionLost, .partialDownloadError]

/-- `isinstance(exception, self.EXCEPTIONS_TO_RETRY)`: membership of the
exception's class in the closed tuple. -/
def isRetryableException (exc : ExceptionKind) : Bool :=
  EXCEPTIONS_TO_RETRY.contains exc

/-- The request's `meta` dict, as used here: the `retry_times` key (absent
on a fresh request) and the remaining entries of the open bag. -/
structure Meta where
  retry_times : Option Nat
  extra : List (String × String)
deriving DecidableEq, Repr

/-- A scrapy `Request` as consumed by this middleware: identity fields
(`url`, `method`, `headers`, `body`), the `meta` bag, and the
`dont_filter` flag read by the scheduler's duplicate filter. -/
structure Request where
  url : String
  method : String
  headers : List (String × String)
  body : String
  meta : Meta
  dont_filter : Bool
deriving DecidableEq, Repr

/-- `request.copy()`: a fresh `Request` whose every field, the `meta` dict
included, has the same contents as the original's. -/
def Request.copy (r : Request) : Request :=
  { url := r.url
    method := r.method
    headers := r.headers
    body := r.body
    meta := { retry_times := r.meta.retry_times, extra := r.meta.extra }
    dont_filter := r.dont_filter }

/-- `request.meta.get('retry_times', 0)`. -/
def Request.storedRetryTimes (r : Request) : Nat :=
  r.meta.retry_times.getD 0

/-- A scrapy `Response` as consumed here: its numeric `status` and its
remaining content, which the middleware never inspects. -/
structure Response where
  status : Int
  body : String
deriving DecidableEq, Repr

/-- The settings object read in `__init__`: `settings.getint('RETRY_TIMES')`
(an arbitrary integer — `getint` performs no sign check) and
`map(int, settings.getlist('RETRY_HTTP_CODES'))`. -/
structure Settings where
  RETRY_TIMES : Int
  RETRY_HTTP_CODES : List Int
deriving DecidableEq, Repr

/-- The `RetryMiddleware` object after `__init__`: the two settings values
stored on `self`. -/
structure RetryMiddleware where
  max_retry_times : Int
  retry_http_codes : List Int
deriving DecidableEq, Repr

/-- `__init__`: copies the two settings onto the instance.  The source
performs no validation whatsoever, so construction is a total function. -/
def RetryMiddleware.init (s : Settings) : RetryMiddleware :=
  { max_retry_times := s.RETRY_TIMES, retry_http_codes := s.RETRY_HTTP_CODES }

/-- `response.status in self.retry_http_codes`: list membership. -/
def RetryMiddleware.isRetryableStatus (mw : RetryMiddleware) (status : Int) : Bool :=
  mw.retry_http_codes.contains status

/-- `_retry`: computes `retries = meta.get('retry_times', 0) + 1`; if
`retries <= self.max_retry_times`, returns a copy of the request with
`meta['retry_times'] = retries` and `dont_filter = True`; otherwise returns
`None` (the request is discarded).  The `reason`/`spider` parameters feed
only the omitted log messages. -/
def RetryMiddleware._retry (mw : RetryMiddleware) (request : Request) : Option Request :=
  let retries := request.storedRetryTimes + 1
  if (retries : Int) ≤ mw.max_retry_times then
    let retryreq := request.copy
    let retryreq := { retryreq with
      meta := { retryreq.meta with retry_times := some retries }
      dont_filter := true }
    some retryreq
  else
    none

/-- `process_response`: if the status is in `retry_http_codes`, return
`self._retry(...) or response` — the retry request when `_retry` produced
one, else the response itself; otherwise return the response unchanged.
`Sum.inl` is a returned `Request`, `Sum.inr` a returned `Response`. -/
def RetryMiddleware.process_response (mw : RetryMiddleware) (request : Request)
    (response : Response) : Request ⊕ Response :=
  if mw.isRetryableStatus response.status then
    match mw._retry request with
    | some retryreq => Sum.inl retryreq
    | none => Sum.inr response
  else
    Sum.inr response

/-- `process_exception`: if the exception is an instance of
`EXCEPTIONS_TO_RETRY`, return `self._retry(...)` (a request or `None`);
otherwise fall off the end of the function, returning `None`. -/
def RetryMiddleware.process_exception (mw : RetryMiddleware) (request : Request)
    (exception : ExceptionKind) : Option Request :=
  if isRetryableException exception then
    mw._retry request
  else
    none

/-- The record `_retry` builds on its reschedule branch: `request.copy()`
with `meta['retry_times']` set to the incremented count and
`dont_filter = True`. -/
def retryCloneOf (req : Request) : Request :=
  { req.copy with
    meta := { req.copy.meta with retry_times := some (req.storedRetryTimes + 1) }
    dont_filter := true }

/-! Concrete fixtures used by witnesses and counterexamples. -/

/-- `RETRY_TIMES = 2`, `RETRY_HTTP_CODES = [500, 503]`. -/
def sampleSettings : Settings := { RETRY_TIMES := 2, RETRY_HTTP_CODES := [500, 503] }

/-- A middleware constructed from `sampleSettings`. -/
def mwSample : RetryMiddleware := RetryMiddleware.init sampleSettings

/-- A middleware with the same retryable-status set as `mwSample` but a
different retry ceiling. -/
def mwSameCodes : RetryMiddleware := { max_retry_times := 7, retry_http_codes := [500, 503] }

/-- A fresh request: no `retry_times` key in `meta`, `dont_filter` unset. -/
def freshReq : Request :=
  { url := "http://www.example.com/page", method := "GET", headers := [], body := "",
    meta := { retry_times := none, extra := [] }, dont_filter := false }

/-- `freshReq` with `meta['retry_times'] = c`. -/
def reqAt (c : Nat) : Request :=
  { freshReq with meta := { retry_times := some c, extra := [] } }

/-- A response with a retryable status under `sampleSettings`. -/
def resp500 : Response := { status := 500, body := "" }

/-- A response with a non-retryable status under `sampleSettings`. -/
def resp404 : Response := { status := 404, body := "" }

/-- Settings carrying a malformed (negative) `RETRY_TIMES`. -/
def negSettings : Settings := { RETRY_TIMES := -1, RETRY_HTTP_CODES := [500, 503] }

/-- C1: when the stored attempt count equals `max_retry_times`, every
retryable outcome is discarded: `_retry` produces no replacement request,
`process_response` hands the failing response back unchanged, and
`process_exception` returns `None`. -/
theorem c1_ceiling_discards (mw : RetryMiddleware) (req : Request)
    (h : (req.storedRetryTimes : Int) = mw.max_retry_times) :
    mw._retry req = none ∧
    (∀ resp : Response, mw.isRetryableStatus resp.status = true →
      mw.process_response req resp = Sum.inr resp) ∧
    (∀ exc : ExceptionKind, isRetryableException exc = true →
      mw.process_exception req exc = none) := by
  have hnot : ¬ (((req.storedRetryTimes + 1 : Nat) : Int) ≤ mw.max_retry_times) := by
    rw [← h]; push_cast; omega
  have hr : mw._retry req = none := by
    unfold RetryMiddleware._retry
    rw [if_neg hnot]
  refine ⟨hr, ?_, ?_⟩
  · intro resp hresp
    simp [RetryMiddleware.process_response, hresp, hr]
  · intro exc hexc
    simp [RetryMiddleware.process_exception, hexc, hr]

/-- C1 witness: with `maxRetries = 2` and stored count 2, a 500 response
and a retryable exception are both discarded. -/
theorem c1_ceiling_discards_witness :
    mwSample._retry (reqAt 2) = none ∧
    mwSample.process_response (reqAt 2) resp500 = Sum.inr resp500 ∧
    mwSample.process_exception (reqAt 2) .connectionLost = none := by
  have h := c1_ceiling_discards mwSample (reqAt 2) (by decide)
  exact ⟨h.1, h.2.1 resp500 (by decide), h.2.2 .connectionLost (by decide)⟩

/-- C2: a rescheduled request is a clone carrying stored count exactly
`c + 1` with target, method, headers, body and the rest of the `meta` bag
preserved; its `retry_times` entry differs from the original's, which
witnesses that `_retry` wrote the count on the fresh copy and not on the
original's `meta` (the original record keeps its own fields — in this
functional embedding `request.copy()` is a fresh record, so no aliasing
exists through which the original could change). -/
theorem c2_clone_increments (mw : RetryMiddleware) (req r' : Request)
    (h : mw._retry req = some r') :
    r'.storedRetryTimes = req.storedRetryTimes + 1 ∧
    r'.url = req.url ∧ r'.method = req.method ∧
    r'.headers = req.headers ∧ r'.body = req.body ∧
    r'.meta.extra = req.meta.extra ∧
    r'.meta.retry_times ≠ req.meta.retry_times := by
  unfold RetryMiddleware._retry at h
  simp only [] at h
  split at h
  case isTrue hc =>
    injection h with h
    subst h
    refine ⟨rfl, rfl, rfl, rfl, rfl, rfl, ?_⟩
    cases hm : req.meta.retry_times with
    | none => simp [Request.copy]
    | some c =>
        simp [Request.copy, Request.storedRetryTimes, hm]
  case isFalse => exact Option.noConfusion h

/-- C2 witness: on a fresh request under `sampleSettings`, `_retry` returns
the clone with stored count 1. -/
theorem c2_clone_increments_witness :
    mwSample._retry freshReq = some (retryCloneOf freshReq) ∧
    (retryCloneOf freshReq).storedRetryTimes = freshReq.storedRetryTimes + 1 :=
  ⟨by decide, (c2_clone_increments mwSample freshReq (retryCloneOf freshReq) (by decide)).1⟩

/-- C3: every request returned for rescheduling — by `_retry` directly, by
`process_response`, or by `process_exception` — carries
`dont_filter = True`. -/
theorem c3_reschedule_sets_dont_filter (mw : RetryMiddleware) (req r' : Request) :
    (mw._retry req = some r' → r'.dont_filter = true) ∧
    (∀ resp : Response, mw.process_response req resp = Sum.inl r' →
      r'.dont_filter = true) ∧
    (∀ exc : ExceptionKind, mw.process_exception req exc = some r' →
      r'.dont_filter = true) := by
  have core : ∀ r'' : Request, mw._retry req = some r'' → r''.dont_filter = true := by
    intro r'' h
    unfold RetryMiddleware._retry at h
    simp only [] at h
    split at h
    · injection h with h
      subst h
      rfl
    · exact Option.noConfusion h
  refine ⟨core r', ?_, ?_⟩
  · intro resp h
    unfold RetryMiddleware.process_response at h
    split at h
    · cases hres : mw._retry req with
      | some rr =>
          rw [hres] at h
          simp only at h
          injection h with h
          subst h
          exact core rr hres
      | none =>
          rw [hres] at h
          simp at h
    · exact Sum.noConfusion h
  · intro exc h
    unfold RetryMiddleware.process_exception at h
    split at h
    · exact core r' h
    · exact Option.noConfusion h

/-- C3 witness: the clone rescheduled for a fresh request under
`sampleSettings` has `dont_filter = True`. -/
theorem c3_reschedule_sets_dont_filter_witness :
    mwSample._retry freshReq = some (retryCloneOf freshReq) ∧
    (retryCloneOf freshReq).dont_filter = true :=
  ⟨by decide,
   (c3_reschedule_sets_dont_filter mwSample freshReq (retryCloneOf freshReq)).1 (by decide)⟩

/-- C4 counterexample: with `maxRetries = 2` and stored count `c = 2`
(so `c ≤ maxRetries`), a retryable 500 response does NOT yield a
reschedule: `_retry` returns `None` and `process_response` hands the
response back, because the source retries only while
`c + 1 ≤ maxRetries`. -/
theorem c4_counterexample :
    ((reqAt 2).storedRetryTimes : Int) ≤ mwSample.max_retry_times ∧
    mwSample.isRetryableStatus resp500.status = true ∧
    mwSample._retry (reqAt 2) = none ∧
    mwSample.process_response (reqAt 2) resp500 = Sum.inr resp500 := by
  decide

/-- C4 (amended): for every stored count `c` with `c + 1 ≤ maxRetries`
(equivalently `c < maxRetries`), a retryable outcome yields a reschedule:
`_retry` returns the clone with `dont_filter = True` and stored count
`c + 1`, and both `process_response` and `process_exception` return it. -/
theorem c4_amended_reschedule_below_ceiling (mw : RetryMiddleware) (req : Request)
    (h : ((req.storedRetryTimes + 1 : Nat) : Int) ≤ mw.max_retry_times) :
    mw._retry req = some (retryCloneOf req) ∧
    (retryCloneOf req).dont_filter = true ∧
    (retryCloneOf req).storedRetryTimes = req.storedRetryTimes + 1 ∧
    (∀ resp : Response, mw.isRetryableStatus resp.status = true →
      mw.process_response req resp = Sum.inl (retryCloneOf req)) ∧
    (∀ exc : ExceptionKind, isRetryableException exc = true →
      mw.process_exception req exc = some (retryCloneOf req)) := by
  have hr : mw._retry req = some (retryCloneOf req) := by
    unfold RetryMiddleware._retry
    simp only []
    rw [if_pos h]
    rfl
  refine ⟨hr, rfl, rfl, ?_, ?_⟩
  · intro resp hresp
    simp [RetryMiddleware.process_response, hresp, hr]
  · intro exc hexc
    simp [RetryMiddleware.process_exception, hexc, hr]

/-- C4 (amended) witness: a fresh request (`c = 0`) under `maxRetries = 2`
is rescheduled as the clone with count 1. -/
theorem c4_amended_reschedule_below_ceiling_witness :
    ((freshReq.storedRetryTimes + 1 : Nat) : Int) ≤ mwSample.max_retry_times ∧
    mwSample._retry freshReq = some (retryCloneOf freshReq) ∧
    mwSample.process_response freshReq resp500 = Sum.inl (retryCloneOf freshReq) := by
  have h := c4_amended_reschedule_below_ceiling mwSample freshReq (by decide)
  exact ⟨by decide, h.1, h.2.2.2.1 resp500 (by decide)⟩

/-- C5: regardless of the stored attempt count, a response whose status is
not in `retry_http_codes` is returned unchanged by `process_response`, and
an exception whose kind is not in `EXCEPTIONS_TO_RETRY` makes
`process_exception` return `None` (the failure is neither replaced nor
suppressed). -/
theorem c5_nonretryable_passthrough (mw : RetryMiddleware) (req : Request) :
    (∀ resp : Response, mw.isRetryableStatus resp.status = false →
      mw.process_response req resp = Sum.inr resp) ∧
    (∀ exc : ExceptionKind, isRetryableException exc = false →
      mw.process_exception req exc = none) := by
  constructor
  · intro resp hresp
    simp [RetryMiddleware.process_response, hresp]
  · intro exc hexc
    simp [RetryMiddleware.process_exception, hexc]

/-- C5 witness: a 404 response passes through unchanged under
`sampleSettings`, and an exception class outside `EXCEPTIONS_TO_RETRY`
yields `None`, both on a request with stored count 1. -/
theorem c5_nonretryable_passthrough_witness :
    mwSample.process_response (reqAt 1) resp404 = Sum.inr resp404 ∧
    mwSample.process_exception (reqAt 1) (.other "ValueError") = none := by
  have h := c5_nonretryable_passthrough mwSample (reqAt 1)
  exact ⟨h.1 resp404 (by decide), h.2 (.other "ValueError") (by decide)⟩

/-- C6: classification is exactly membership: `isRetryableStatus` decides
`status ∈ retry_http_codes`, `isRetryableException` decides membership in
the closed tuple `EXCEPTIONS_TO_RETRY`, and any exception class outside
that tuple — every `other` kind — classifies as non-retryable.  Both
classifiers are total Lean functions, hence side-effect- and error-free. -/
theorem c6_classification_is_membership :
    (∀ (mw : RetryMiddleware) (s : Int),
      mw.isRetryableStatus s = true ↔ s ∈ mw.retry_http_codes) ∧
    (∀ exc : ExceptionKind,
      isRetryableException exc = true ↔ exc ∈ EXCEPTIONS_TO_RETRY) ∧
    (∀ name : String, isRetryableException (.other name) = false) := by
  refine ⟨?_, ?_, ?_⟩
  · intro mw s
    simp [RetryMiddleware.isRetryableStatus]
  · intro exc
    simp [isRetryableException]
  · intro name
    simp [isRetryableException, EXCEPTIONS_TO_RETRY]

/-- C6 witness: under `sampleSettings`, 500 is classified retryable because
it is in the configured list, and the `ValueError` kind is non-retryable. -/
theorem c6_classification_is_membership_witness :
    (mwSample.isRetryableStatus 500 = true ↔ (500 : Int) ∈ mwSample.retry_http_codes) ∧
    isRetryableException (.other "ValueError") = false :=
  ⟨c6_classification_is_membership.1 mwSample 500,
   c6_classification_is_membership.2.2 "ValueError"⟩

/-- C7 counterexample: construction does NOT fail fast on a malformed
policy.  `__init__` stores `settings.getint('RETRY_TIMES')` with no
validation, so building the middleware from settings with
`RETRY_TIMES = -1` succeeds, the instance carries the negative ceiling,
and a decision-time call (`process_response` on a retryable 500) runs
against that malformed policy. -/
theorem c7_counterexample :
    (RetryMiddleware.init negSettings).max_retry_times = -1 ∧
    (RetryMiddleware.init negSettings).process_response freshReq resp500 = Sum.inr resp500 := by
  decide

/-- C7 (amended): construction performs no validation — `__init__` always
succeeds, storing the settings values verbatim — and a negative
`maxRetries` therefore reaches decision time, where it behaves as a
zero-retry policy: `_retry` discards every request at every stored
count. -/
theorem c7_amended_no_validation (s : Settings) (hneg : s.RETRY_TIMES < 0) :
    RetryMiddleware.init s =
      { max_retry_times := s.RETRY_TIMES, retry_http_codes := s.RETRY_HTTP_CODES } ∧
    (∀ req : Request, (RetryMiddleware.init s)._retry req = none) := by
  refine ⟨rfl, ?_⟩
  intro req
  unfold RetryMiddleware._retry
  simp only []
  rw [if_neg]
  intro hle
  have : (0 : Int) ≤ ((req.storedRetryTimes + 1 : Nat) : Int) := by positivity
  simp [RetryMiddleware.init] at hle
  omega

/-- C7 (amended) witness: the middleware built from `negSettings` exists
and discards a fresh request. -/
theorem c7_amended_no_validation_witness :
    negSettings.RETRY_TIMES < 0 ∧
    (RetryMiddleware.init negSettings)._retry freshReq = none :=
  ⟨by decide, (c7_amended_no_validation negSettings (by decide)).2 freshReq⟩

/-- C8: classification is deterministic — it depends only on the (status,
policy) pair: two invocations of `isRetryableStatus` on the same status
against middlewares holding the same `retry_http_codes` return the same
boolean. -/
theorem c8_classification_deterministic (mw₁ mw₂ : RetryMiddleware) (s₁ s₂ : Int)
    (hpol : mw₁.retry_http_codes = mw₂.retry_http_codes) (hs : s₁ = s₂) :
    mw₁.isRetryableStatus s₁ = mw₂.isRetryableStatus s₂ := by
  subst hs
  simp [RetryMiddleware.isRetryableStatus, hpol]

/-- C8 witness: `mwSample` and `mwSameCodes` hold the same retryable-status
list and classify 500 identically. -/
theorem c8_classification_deterministic_witness :
    mwSample.isRetryableStatus 500 = mwSameCodes.isRetryableStatus 500 :=
  c8_classification_deterministic mwSample mwSameCodes 500 500 (by decide) rfl

/-- C9: a retryable status whose retry budget is exhausted
(`c + 1 > maxRetries`) still delivers the failing response downstream:
`process_response` returns the original response (the `or response`
fallback when `_retry` yields `None`). -/
theorem c9_exhausted_returns_response (mw : RetryMiddleware) (req : Request)
    (resp : Response)
    (hresp : mw.isRetryableStatus resp.status = true)
    (hmax : mw.max_retry_times < ((req.storedRetryTimes + 1 : Nat) : Int)) :
    mw.process_response req resp = Sum.inr resp := by
  have hr : mw._retry req = none := by
    unfold RetryMiddleware._retry
    simp only []
    rw [if_neg]
    omega
  simp [RetryMiddleware.process_response, hresp, hr]

/-- C9 witness: stored count 2 at `maxRetries = 2`: the 500 response is
returned unchanged. -/
theorem c9_exhausted_returns_response_witness :
    mwSample.process_response (reqAt 2) resp500 = Sum.inr resp500 :=
  c9_exhausted_returns_response mwSample (reqAt 2) resp500 (by decide) (by decide)

/-- C10: `process_exception` returns `None` exactly when the exception kind
is outside `EXCEPTIONS_TO_RETRY`, or is inside it but the ceiling is
exceeded (`c + 1 > maxRetries`) — so an exhausted retryable failure is
indistinguishable from a non-retryable one at this interface; and its
result is always either `None` or a replacement request (never a
response, as its return type records). -/
theorem c10_exception_none_characterisation (mw : RetryMiddleware) (req : Request)
    (exc : ExceptionKind) :
    (mw.process_exception req exc = none ↔
      (isRetryableException exc = false ∨
        (isRetryableException exc = true ∧
          mw.max_retry_times < ((req.storedRetryTimes + 1 : Nat) : Int)))) ∧
    (mw.process_exception req exc = none ∨
      ∃ r' : Request, mw.process_exception req exc = some r') := by
  constructor
  · by_cases hexc : isRetryableException exc = true
    · simp only [RetryMiddleware.process_exception, hexc, if_true]
      unfold RetryMiddleware._retry
      simp only []
      split
      next hc =>
        simp only [hexc, true_and]
        constructor
        · intro habs
          exact Option.noConfusion habs
        · intro hcases
          rcases hcases with hfalse | hlt
          · simp [hexc] at hfalse
          · omega
      next hc =>
        simp only [hexc, true_and]
        constructor
        · intro _
          right
          omega
        · intro _
          trivial
    · have hexc' : isRetryableException exc = false := by
        cases hb : isRetryableException exc
        · rfl
        · exact absurd hb hexc
      simp [RetryMiddleware.process_exception, hexc']
  · cases hres : mw.process_exception req exc with
    | none => exact Or.inl rfl
    | some r' => exact Or.inr ⟨r', rfl⟩

/-- C10 witness: an exhausted connection-lost failure (count 2 at
`maxRetries = 2`) yields `None`, exactly as a non-retryable kind does. -/
theorem c10_exception_none_characterisation_witness :
    mwSample.process_exception (reqAt 2) .connectionLost = none :=
  (c10_exception_none_characterisation mwSample (reqAt 2) .connectionLost).1.mpr
    (Or.inr ⟨by decide, by decide⟩)

end Scrapy
